import Mathlib

/-!
Verification of the svd2rust code generator (src/generate/device.rs and
src/generate/generic.rs) against its natural-language specification.

The development has two parts:
* a model of the generated runtime code (the `Peripherals` singleton with
  `take`/`steal`, and the generic register façade `Reg`/`R`/`W`), translated
  from the templates and scaffold in the source;
* a model of the `render` function of device.rs, which assembles the emitted
  token stream and the feature list.

Volatile memory traffic is made observable by having every register operation
return, next to the new cell contents, the list of volatile operations it
performed on the cell.
-/

namespace Svd2Rust

/-! ## The generated singleton: `DEVICE_PERIPHERALS`, `take`, `steal`
Translated from the `quote!` templates in device.rs lines 230-270.  The
`Peripherals` value itself consists only of zero-sized handles, so it is
modelled as `Unit`; the relevant state is the boolean `DEVICE_PERIPHERALS`
flag, threaded explicitly.  `interrupt::free` only runs its closure (with
interrupts masked), so it is the identity on this state. -/

/-- The generated `Peripherals` struct: all fields are zero-sized handles. -/
def Peripherals : Type := Unit

instance : DecidableEq Peripherals := fun _ _ => isTrue rfl

/-- Initial value of the generated `static mut DEVICE_PERIPHERALS: bool = false`. -/
def DEVICE_PERIPHERALS_init : Bool := false

/-- Translation of the generated `Peripherals::steal`: sets the flag and
returns the struct.  State-passing style: input is the current flag, output is
(returned value, new flag). -/
def Peripherals.steal (dp : Bool) : Peripherals × Bool :=
  ((), true)

/-- Translation of the generated `Peripherals::take`: inside a critical
section, if the flag is set return `None`, otherwise `Some(steal())`. -/
def Peripherals.take (dp : Bool) : Option Peripherals × Bool :=
  if dp then (none, dp)
  else
    let s := Peripherals.steal dp
    (some s.1, s.2)

/-! ## The generic register façade (generic.rs)
`Reg<U, REG>` wraps a volatile cell of `U`.  The cell contents are passed
explicitly, and each operation returns the new contents together with the
trace of volatile operations it performed. -/

/-- One volatile operation on a register cell. -/
inductive MemOp (U : Type) where
  | load (v : U)
  | store (v : U)
deriving DecidableEq

/-- Whether a volatile operation is a load. -/
def MemOp.isLoad {U : Type} : MemOp U → Bool
  | .load _ => true
  | .store _ => false

/-- Whether a volatile operation is a store. -/
def MemOp.isStore {U : Type} : MemOp U → Bool
  | .load _ => false
  | .store _ => true

/-- Number of volatile loads in a trace. -/
def loadCount {U : Type} (t : List (MemOp U)) : Nat :=
  (t.filter MemOp.isLoad).length

/-- Number of volatile stores in a trace. -/
def storeCount {U : Type} (t : List (MemOp U)) : Nat :=
  (t.filter MemOp.isStore).length

/-- Register/field reader (generic.rs `R<T>`): wraps the raw bits. -/
structure R (U : Type) where
  bits : U

/-- Register writer (generic.rs `W<REG>`): wraps the writable bits. -/
structure W (U : Type) where
  bits : U

/-- Translation of the (unsafe) raw-bits writer method `W::bits`:
overwrites the writer's bits.  (Named `setBits` because `bits` is already the
field name.) -/
def W.setBits {U : Type} (w : W U) (b : U) : W U :=
  { w with bits := b }

/-- Translation of `Reg::read` (generic.rs lines 66-78): one volatile load,
wrapped into a reader. -/
def Reg.read {U : Type} (cell : U) : R U × List (MemOp U) :=
  ({ bits := cell }, [MemOp.load cell])

/-- Translation of `Reg::reset` (generic.rs lines 80-90): one volatile store
of the reset value `rv` (the associated constant `Self::RESET_VALUE`). -/
def Reg.reset {U : Type} (rv : U) (cell : U) : U × List (MemOp U) :=
  (rv, [MemOp.store rv])

/-- Translation of `Reg::write` (generic.rs lines 92-107): apply `f` to a
writer initialized with the reset value `rv`, then one volatile store of the
resulting bits. -/
def Reg.write {U : Type} (rv : U) (f : W U → W U) (cell : U) : U × List (MemOp U) :=
  ((f { bits := rv }).bits, [MemOp.store (f { bits := rv }).bits])

/-- Translation of `Reg::write_with_zero` (generic.rs lines 109-122): apply
`f` to a writer initialized with `U::default()` (zero for the unsigned
backing types), then one volatile store. -/
def Reg.write_with_zero {U : Type} [Zero U] (f : W U → W U) (cell : U) :
    U × List (MemOp U) :=
  ((f { bits := (0 : U) }).bits, [MemOp.store (f { bits := (0 : U) }).bits])

/-- Translation of `Reg::modify` (generic.rs lines 124-140): one volatile
load, apply `f` to a reader over the loaded bits and a writer seeded from the
same bits, then one volatile store of the result. -/
def Reg.modify {U : Type} (f : R U → W U → W U) (cell : U) : U × List (MemOp U) :=
  ((f { bits := cell } { bits := cell }).bits,
   [MemOp.load cell, MemOp.store (f { bits := cell } { bits := cell }).bits])

/-! ### Capability gating
In the source the availability of each operation is enforced by trait bounds
(`Self: Readable`, `Self: Writable`, `Self: ResetValue<Type=U>`).  A register
description records which capability marks its marker type implements, and
each gated operation is defined exactly when its trait bounds hold, returning
`none` otherwise. -/

/-- Capability description of one generated register type: which of the
marker traits `Readable`/`Writable` it implements, and its `ResetValue`
associated constant when that trait is implemented. -/
structure RegSpec (U : Type) where
  readable : Bool
  writable : Bool
  reset_value : Option U

/-- Gated `read`: requires the `Readable` bound. -/
def RegSpec.readOp {U : Type} (rs : RegSpec U) (cell : U) :
    Option (R U × List (MemOp U)) :=
  if rs.readable then some (Reg.read cell) else none

/-- Gated `reset`: requires the `ResetValue + Writable` bounds. -/
def RegSpec.resetOp {U : Type} (rs : RegSpec U) (cell : U) :
    Option (U × List (MemOp U)) :=
  if rs.writable then rs.reset_value.map (fun rv => Reg.reset rv cell) else none

/-- Gated `write`: requires the `ResetValue + Writable` bounds. -/
def RegSpec.writeOp {U : Type} (rs : RegSpec U) (f : W U → W U) (cell : U) :
    Option (U × List (MemOp U)) :=
  if rs.writable then rs.reset_value.map (fun rv => Reg.write rv f cell) else none

/-- Gated `write_with_zero`: requires only the `Writable` bound (plus
`Default` on `U`, which every backing type has). -/
def RegSpec.writeWithZeroOp {U : Type} [Zero U] (rs : RegSpec U) (f : W U → W U)
    (cell : U) : Option (U × List (MemOp U)) :=
  if rs.writable then some (Reg.write_with_zero f cell) else none

/-- Gated `modify`: requires the `Readable + Writable` bounds. -/
def RegSpec.modifyOp {U : Type} (rs : RegSpec U) (f : R U → W U → W U) (cell : U) :
    Option (U × List (MemOp U)) :=
  if rs.readable && rs.writable then some (Reg.modify f cell) else none

/-- Translation of the `PartialEq<FI> for R<FI>` impl (generic.rs lines
159-168): a reader compares equal to an enumerated value exactly when the
reader's bits equal the value's `to_bits()` conversion.  The `ToBits` trait
method is passed as the function `toBits`. -/
def R.eqFI {U FI : Type} [BEq U] (toBits : FI → U) (r : R U) (v : FI) : Bool :=
  r.bits == toBits v

/-! ## The device generator (device.rs `render`)
The input `Device` tree is modelled with exactly the attributes `render`
inspects.  Peripheral register contents are irrelevant to `render` itself
(they are consumed by the out-of-scope `peripheral::render` collaborator), so
registers are abstracted to an opaque list whose only observable aspect is
emptiness. -/

/-- The CPU descriptor attributes read by `render`. -/
structure Cpu where
  nvic_priority_bits : Nat
  fpu_present : Bool
deriving DecidableEq

/-- The peripheral attributes read by `render`: name, presence/emptiness of
the register list, and the optional `derivedFrom` link. -/
structure Peripheral where
  name : String
  registers : Option (List Unit)
  derived_from : Option String
deriving DecidableEq

/-- The device attributes read by `render`. -/
structure Device where
  name : String
  cpu : Option Cpu
  peripherals : List Peripheral
deriving DecidableEq

/-- The four supported targets. -/
inductive Target where
  | cortexM
  | msp430
  | riscv
  | none_
deriving DecidableEq

/-- One field of the generated `Peripherals` struct (and, with the same data,
one field initializer in `steal`): its identifier and whether it carries a
`#[cfg(feature = ...)]` gate. -/
structure PField where
  name : String
  gated : Bool
deriving DecidableEq

/-- The token chunks `render` pushes, one constructor per `quote!` block (or
per out-of-scope collaborator call), carrying the data the chunk depends
on. -/
inductive Token where
  | msp430InterruptFeature
  | rtNightlyFeatures
  | crateAttrs (docName : String)
  | cortexMCrates
  | msp430Crates
  | riscvCrates
  | bareMetalImports (maybe_unused : Bool)
  | nvicPrioBits (bits : Nat)
  | interruptApi
  | coreReexportBase
  | coreReexports (fpu : Bool)
  | genericInline
  | genericModulePath
  | peripheralApi (name : String)
  | peripheralsSingleton (fields : List PField) (exprs : List PField)
      (take : Bool) (steal : Bool)
deriving DecidableEq

/-- The `RenderOutput` struct of device.rs: tokens plus feature-flag names. -/
structure RenderOutput where
  tokens : List Token
  features : List String
deriving DecidableEq

/-- Result of `render`, with the file-system effect (writing `generic.rs`)
made explicit. -/
structure RenderResult where
  output : RenderOutput
  genericFileWritten : Bool
deriving DecidableEq

/-- Modelled from the spec: the §4.1 identifier sanitizer
(`util::ToSanitizedSnakeCase` / `util::ToSanitizedUpperCase` are not under
src/).  Replace runs of non-alphanumeric characters by a single underscore
(map then collapse), then strip leading and trailing underscores. -/
def collapseUnders : List Char → List Char
  | [] => []
  | [c] => [c]
  | c1 :: c2 :: rest =>
    if c1 == '_' && c2 == '_' then collapseUnders (c2 :: rest)
    else c1 :: collapseUnders (c2 :: rest)

/-- Modelled from the spec: strip leading and trailing underscores. -/
def stripUnders (l : List Char) : List Char :=
  (((l.dropWhile (· == '_')).reverse.dropWhile (· == '_')).reverse)

/-- Modelled from the spec: the casing-independent part of the §4.1
sanitizer. -/
def sanitizeChars (s : String) : String :=
  String.mk (stripUnders (collapseUnders
    (s.data.map fun c => if c.isAlphanum then c else '_')))

/-- Modelled from the spec: reserved identifiers of the target language
(Rust keywords). -/
def rustReservedWords : List String :=
  ["as", "break", "const", "continue", "crate", "dyn", "else", "enum",
   "extern", "false", "fn", "for", "if", "impl", "in", "let", "loop",
   "match", "mod", "move", "mut", "pub", "ref", "return", "self", "static",
   "struct", "super", "trait", "true", "type", "unsafe", "use", "where",
   "while", "abstract", "async", "await", "become", "box", "do", "final",
   "macro", "override", "priv", "try", "typeof", "unsized", "virtual",
   "yield"]

/-- Character-wise lower-casing (the library's `String.toLower` is defined by
well-founded recursion, which blocks definitional evaluation). -/
def lowerStr (s : String) : String :=
  String.mk (s.data.map Char.toLower)

/-- Character-wise upper-casing, modelling Rust's `to_uppercase` on ASCII
names. -/
def upperStr (s : String) : String :=
  String.mk (s.data.map Char.toUpper)

/-- Modelled from the spec: `to_sanitized_snake_case` — sanitize, lower-case,
and prepend an underscore when the result starts with a digit or is a
reserved word. -/
def to_sanitized_snake_case (s : String) : String :=
  let base := lowerStr (sanitizeChars s)
  if (base.data.headD 'a').isDigit || rustReservedWords.contains base then
    "_" ++ base
  else base

/-- Modelled from the spec: `to_sanitized_upper_case` — sanitize, upper-case,
and prepend an underscore when the result starts with a digit or is a
reserved word. -/
def to_sanitized_upper_case (s : String) : String :=
  let base := upperStr (sanitizeChars s)
  if (base.data.headD 'A').isDigit || rustReservedWords.contains base then
    "_" ++ base
  else base

/-- The `core_peripherals` name lists of device.rs lines 126-135, selected by
FPU presence. -/
def corePeripheralNames (fpu_present : Bool) : List String :=
  if fpu_present then
    ["CBP", "CPUID", "DCB", "DWT", "FPB", "FPU", "ITM", "MPU", "NVIC",
     "SCB", "SYST", "TPIU"]
  else
    ["CBP", "CPUID", "DCB", "DWT", "FPB", "ITM", "MPU", "NVIC", "SCB",
     "SYST", "TPIU"]

/-- The `fpu_present` value `render` computes (device.rs lines 108-120):
the CPU descriptor's flag, or `true` when there is no CPU descriptor
("retaining the previous assumption"). -/
def fpuPresent (d : Device) : Bool :=
  match d.cpu with
  | some cpu => cpu.fpu_present
  | none => true

/-- Accumulator of the peripheral loop of device.rs lines 179-221: the
tokens pushed so far and the `features`, `fields` and `exprs` vectors. -/
structure LoopAcc where
  tokens : List Token
  features : List String
  fields : List PField
  exprs : List PField
deriving DecidableEq

/-- The core-peripheral skip condition of device.rs line 180. -/
def skipsCore (target : Target) (core : List String) (p : Peripheral) : Bool :=
  target == Target.cortexM && core.contains (upperStr p.name)

/-- The empty-register skip condition of device.rs lines 189-195: no register
block will be generated, so the peripheral gets no `Peripherals` field. -/
def skipsField (p : Peripheral) : Bool :=
  (p.registers.getD []).isEmpty && p.derived_from.isNone

/-- One iteration of the peripheral loop (device.rs lines 179-221). -/
def peripheralStep (target : Target) (conditional : Bool) (core : List String)
    (acc : LoopAcc) (p : Peripheral) : LoopAcc :=
  if skipsCore target core p then acc
  else
    let acc1 := { acc with tokens := acc.tokens ++ [Token.peripheralApi p.name] }
    if skipsField p then acc1
    else
      { acc1 with
        features := acc1.features ++ [to_sanitized_snake_case p.name],
        fields := acc1.fields ++
          [{ name := to_sanitized_upper_case p.name, gated := conditional }],
        exprs := acc1.exprs ++
          [{ name := to_sanitized_upper_case p.name, gated := conditional }] }

/-- Translation of device.rs `render`.  The out-of-scope collaborators
(`interrupt::render`, `peripheral::render`) are abstracted to single opaque
tokens; they are the only fallible calls, so the model is total.  The
`device_x` linker-fragment accumulator is likewise out of scope. -/
def render (d : Device) (target : Target) (nightly : Bool) (generic_mod : Bool)
    (conditional : Bool) : RenderResult :=
  let t1 := if target == Target.msp430 then [Token.msp430InterruptFeature] else []
  let t2 :=
    if target ≠ Target.none_ ∧ target ≠ Target.cortexM ∧ target ≠ Target.riscv
    then [Token.rtNightlyFeatures] else []
  let t3 := [Token.crateAttrs (upperStr d.name)]
  let t4 :=
    match target with
    | Target.cortexM => [Token.cortexMCrates]
    | Target.msp430 => [Token.msp430Crates]
    | Target.riscv => [Token.riscvCrates]
    | Target.none_ => []
  let t5 := [Token.bareMetalImports conditional]
  let t6 :=
    match d.cpu with
    | some cpu => [Token.nvicPrioBits cpu.nvic_priority_bits]
    | none => []
  let t7 := [Token.interruptApi]
  let core := corePeripheralNames (fpuPresent d)
  let t8 :=
    if target == Target.cortexM
    then [Token.coreReexportBase, Token.coreReexports (fpuPresent d)]
    else []
  let t9 := if generic_mod then [] else [Token.genericInline]
  let acc := d.peripherals.foldl (peripheralStep target conditional core)
    { tokens := [], features := [], fields := [], exprs := [] }
  let t10 := [Token.peripheralsSingleton acc.fields acc.exprs
    (decide (target ≠ Target.none_)) true]
  { output :=
      { tokens := t1 ++ t2 ++ t3 ++ t4 ++ t5 ++ t6 ++ t7 ++ t8 ++ t9
          ++ acc.tokens ++ t10,
        features := acc.features },
    genericFileWritten := generic_mod }

/-- Modelled from the spec: the emission driver (§2.8, not under src/), which,
when `generic_mod` is true, references the `generic.rs` sibling file by module
path from the emitted compilation unit. -/
def emissionDriverGenericRef (generic_mod : Bool) : List Token :=
  if generic_mod then [Token.genericModulePath] else []

/-- The full emitted compilation unit: `render`'s output followed by the
spec-modelled emission driver's module-path reference. -/
def renderWithDriver (d : Device) (target : Target) (nightly : Bool)
    (generic_mod : Bool) (conditional : Bool) : RenderResult :=
  let r := render d target nightly generic_mod conditional
  { r with
    output :=
      { r.output with
        tokens := r.output.tokens ++ emissionDriverGenericRef generic_mod } }

/-- Whether a peripheral survives the core-peripheral skip of device.rs
line 180. -/
def includedPeripheral (target : Target) (core : List String)
    (p : Peripheral) : Bool :=
  !skipsCore target core p

/-- Whether a peripheral contributes a `Peripherals` field (device.rs lines
189-199): it has a non-empty register list or a `derivedFrom` link. -/
def contributesField (p : Peripheral) : Bool :=
  !skipsField p

/-- The peripherals of a device that end up in the `Peripherals` struct. -/
def fieldPeripherals (d : Device) (target : Target) : List Peripheral :=
  d.peripherals.filter fun p =>
    includedPeripheral target (corePeripheralNames (fpuPresent d)) p
      && contributesField p

/-- All `Peripherals`-struct fields occurring in an output's tokens. -/
def singletonFields (r : RenderResult) : List PField :=
  (r.output.tokens.filterMap fun t =>
    match t with
    | Token.peripheralsSingleton flds _ _ _ => some flds
    | _ => none).flatten

/-- Whether the output's tokens contain a `Peripherals` impl with a `take`
constructor. -/
def takeEmitted (r : RenderResult) : Bool :=
  r.output.tokens.any fun t =>
    match t with
    | Token.peripheralsSingleton _ _ tk _ => tk
    | _ => false

/-- Whether the output's tokens contain a `Peripherals` impl with a `steal`
constructor. -/
def stealEmitted (r : RenderResult) : Bool :=
  r.output.tokens.any fun t =>
    match t with
    | Token.peripheralsSingleton _ _ _ st => st
    | _ => false

/-! ### Characterization of the peripheral loop -/

/-- The peripheral loop appends, to each accumulator component, one entry per
peripheral surviving the corresponding filters. -/
theorem peripheralLoop_eq (target : Target) (conditional : Bool)
    (core : List String) (ps : List Peripheral) (acc : LoopAcc) :
    ps.foldl (peripheralStep target conditional core) acc =
      { tokens := acc.tokens ++
          (ps.filter (includedPeripheral target core)).map
            (fun p => Token.peripheralApi p.name),
        features := acc.features ++
          (ps.filter fun p =>
              includedPeripheral target core p && contributesField p).map
            (fun p => to_sanitized_snake_case p.name),
        fields := acc.fields ++
          (ps.filter fun p =>
              includedPeripheral target core p && contributesField p).map
            (fun p => { name := to_sanitized_upper_case p.name,
                        gated := conditional }),
        exprs := acc.exprs ++
          (ps.filter fun p =>
              includedPeripheral target core p && contributesField p).map
            (fun p => { name := to_sanitized_upper_case p.name,
                        gated := conditional }) } := by
  induction ps generalizing acc with
  | nil => simp
  | cons p ps ih =>
    simp only [List.foldl_cons, List.filter_cons]
    rw [ih]
    by_cases h1 : skipsCore target core p = true
    · simp only [peripheralStep, includedPeripheral, contributesField, h1,
        Bool.not_true, Bool.false_and, if_true]
      simp
    · rw [Bool.not_eq_true] at h1
      by_cases h2 : skipsField p = true
      · simp only [peripheralStep, includedPeripheral, contributesField, h1,
          Bool.not_false, Bool.true_and, h2, Bool.not_true, if_true,
          Bool.false_eq_true, if_false]
        simp
      · rw [Bool.not_eq_true] at h2
        simp only [peripheralStep, includedPeripheral, contributesField, h1, h2,
          Bool.not_false, Bool.true_and, Bool.false_eq_true, if_false, if_true]
        simp

/-- Mapping every element to `none` filter-maps to the empty list. -/
theorem filterMap_const_none {α β : Type} (l : List α) :
    l.filterMap (fun _ => (none : Option β)) = [] := by
  induction l with
  | nil => rfl
  | cons a l ih => simp [List.filterMap_cons, ih]

/-- A constantly-false predicate makes `any` false. -/
theorem any_const_false {α : Type} (l : List α) :
    (l.any fun _ => false) = false := by
  induction l with
  | nil => rfl
  | cons a l ih => simp [ih]

/-- The feature list `render` returns: one sanitized snake-case name per
peripheral that contributes a `Peripherals` field, whatever the value of
`conditional`. -/
theorem render_features_eq (d : Device) (target : Target) (n g c : Bool) :
    (render d target n g c).output.features =
      (fieldPeripherals d target).map (fun p => to_sanitized_snake_case p.name) := by
  simp [render, peripheralLoop_eq, fieldPeripherals]

/-- The `Peripherals`-struct fields `render` emits: one per contributing
peripheral, named with the sanitized upper-case name, gated exactly when
`conditional` is set. -/
theorem render_singletonFields_eq (d : Device) (target : Target) (n g c : Bool) :
    singletonFields (render d target n g c) =
      (fieldPeripherals d target).map
        (fun p => { name := to_sanitized_upper_case p.name, gated := c }) := by
  rcases d with ⟨nm, cpu, ps⟩
  cases target <;> cases cpu <;> cases g <;>
    simp [singletonFields, render, peripheralLoop_eq, fieldPeripherals, fpuPresent,
      List.filterMap_append, List.filterMap_map, filterMap_const_none,
      Function.comp]

/-! ## Claim C1 -/

/-- C1: over the singleton's state (the `DEVICE_PERIPHERALS` flag, initially
false): `take` then `take` returns `Some` then `None`; `steal` after a
successful `take` still returns a value (the model's `steal` returns the
struct unconditionally) and leaves the flag set; `take` after `steal`
returns `None`.  Equivalently, `take` returns `Some` exactly when the flag is
false and in that case sets it, while `steal` always sets the flag. -/
theorem claim_C1_take_steal :
    ((Peripherals.take DEVICE_PERIPHERALS_init).1.isSome = true
      ∧ (Peripherals.take (Peripherals.take DEVICE_PERIPHERALS_init).2).1 = none)
    ∧ (∀ s : Bool, (Peripherals.steal (Peripherals.take s).2).2 = true)
    ∧ (∀ s : Bool, (Peripherals.take (Peripherals.steal s).2).1 = none)
    ∧ (∀ s : Bool, ((Peripherals.take s).1.isSome = true ↔ s = false)
        ∧ (s = false → (Peripherals.take s).2 = true)
        ∧ (Peripherals.steal s).2 = true) := by
  decide

/-! ## Claim C3 -/

/-- C3: for every register with the `Writable` and `ResetValue` capabilities
(reset value `rv`) and every writer function `f`, `write f` leaves the cell
equal to the bits of `f` applied to a writer whose bits are `RESET_VALUE`,
with a trace of exactly one store and no load. -/
theorem claim_C3_write (U : Type) (rs : RegSpec U) (rv : U) (f : W U → W U)
    (cell : U) (hw : rs.writable = true) (hrv : rs.reset_value = some rv) :
    ∃ tr, rs.writeOp f cell = some ((f { bits := rv }).bits, tr)
      ∧ storeCount tr = 1 ∧ loadCount tr = 0 := by
  refine ⟨[MemOp.store ((f { bits := rv }).bits)], ?_, rfl, rfl⟩
  simp [RegSpec.writeOp, hw, hrv, Reg.write]

/-- Witness for C3 at a concrete register and writer function. -/
theorem claim_C3_write_witness :
    (({ readable := false, writable := true, reset_value := some 5 } :
        RegSpec Nat).writable = true)
    ∧ (({ readable := false, writable := true, reset_value := some 5 } :
        RegSpec Nat).reset_value = some 5)
    ∧ ∃ tr,
        ({ readable := false, writable := true, reset_value := some 5 } :
            RegSpec Nat).writeOp (fun w => W.setBits w (w.bits + 2)) 0 =
          some (((fun w => W.setBits w (w.bits + 2)) ({ bits := 5 } : W Nat)).bits, tr)
        ∧ storeCount tr = 1 ∧ loadCount tr = 0 :=
  ⟨rfl, rfl, claim_C3_write Nat _ 5 _ 0 rfl rfl⟩

/-! ## Claim C4 -/

/-- C4: for every register with both the `Readable` and `Writable`
capabilities and every function `f`, `modify f` loads the cell once,
constructs a reader and a writer both carrying the loaded bits, and stores
`(f reader writer).bits` with exactly one store; the trace is exactly the
load followed by the store, and the cell is the only state. -/
theorem claim_C4_modify (U : Type) (rs : RegSpec U) (f : R U → W U → W U)
    (cell : U) (hr : rs.readable = true) (hw : rs.writable = true) :
    ∃ r w tr, r.bits = cell ∧ w.bits = cell
      ∧ rs.modifyOp f cell = some ((f r w).bits, tr)
      ∧ tr = [MemOp.load cell, MemOp.store ((f r w).bits)]
      ∧ loadCount tr = 1 ∧ storeCount tr = 1 := by
  refine ⟨{ bits := cell }, { bits := cell }, _, rfl, rfl, ?_, rfl, rfl, rfl⟩
  simp [RegSpec.modifyOp, hr, hw, Reg.modify]

/-- Witness for C4 at a concrete register and function. -/
theorem claim_C4_modify_witness :
    (({ readable := true, writable := true, reset_value := some 0 } :
        RegSpec Nat).readable = true)
    ∧ (({ readable := true, writable := true, reset_value := some 0 } :
        RegSpec Nat).writable = true)
    ∧ ∃ r w tr, R.bits r = 7 ∧ W.bits w = 7
      ∧ ({ readable := true, writable := true, reset_value := some 0 } :
          RegSpec Nat).modifyOp (fun r w => W.setBits w (r.bits + 1)) 7 =
        some (((fun (r : R Nat) (w : W Nat) => W.setBits w (r.bits + 1)) r w).bits, tr)
      ∧ tr = [MemOp.load 7,
          MemOp.store (((fun (r : R Nat) (w : W Nat) => W.setBits w (r.bits + 1)) r w).bits)]
      ∧ loadCount tr = 1 ∧ storeCount tr = 1 :=
  ⟨rfl, rfl, claim_C4_modify Nat _ _ 7 rfl rfl⟩

/-! ## Claim C5 -/

/-- C5: for every `Writable` register and writer function `f`,
`write_with_zero f` stores the bits of `f` applied to a writer initialized
to zero, independently of any declared reset value (any two writable
registers give the same result); moreover `write_with_zero` is available on
any writable register even without a declared `ResetValue`, whereas `write`
and `reset` are unavailable (return `none`) when no reset value is
declared. -/
theorem claim_C5_write_with_zero (U : Type) [Zero U] (rs : RegSpec U)
    (f : W U → W U) (cell : U) (hw : rs.writable = true) :
    (∃ tr, rs.writeWithZeroOp f cell = some ((f { bits := (0 : U) }).bits, tr)
        ∧ storeCount tr = 1 ∧ loadCount tr = 0)
    ∧ (∀ rs' : RegSpec U, rs'.writable = true →
        rs'.writeWithZeroOp f cell = rs.writeWithZeroOp f cell)
    ∧ (rs.reset_value = none → rs.writeOp f cell = none ∧ rs.resetOp cell = none) := by
  refine ⟨⟨[MemOp.store ((f { bits := (0 : U) }).bits)], ?_, rfl, rfl⟩, ?_, ?_⟩
  · simp [RegSpec.writeWithZeroOp, hw, Reg.write_with_zero]
  · intro rs' hw'
    simp [RegSpec.writeWithZeroOp, hw, hw']
  · intro hnone
    constructor
    · simp [RegSpec.writeOp, hw, hnone]
    · simp [RegSpec.resetOp, hw, hnone]

/-- Witness for C5 at a concrete writable register with no reset value. -/
theorem claim_C5_write_with_zero_witness :
    (({ readable := false, writable := true, reset_value := none } :
        RegSpec Nat).writable = true)
    ∧ ((∃ tr,
        ({ readable := false, writable := true, reset_value := none } :
            RegSpec Nat).writeWithZeroOp (fun w => W.setBits w (w.bits + 3)) 9 =
          some (((fun w => W.setBits w (w.bits + 3)) ({ bits := 0 } : W Nat)).bits, tr)
        ∧ storeCount tr = 1 ∧ loadCount tr = 0)
      ∧ (∀ rs' : RegSpec Nat, rs'.writable = true →
          rs'.writeWithZeroOp (fun w => W.setBits w (w.bits + 3)) 9 =
            ({ readable := false, writable := true, reset_value := none } :
              RegSpec Nat).writeWithZeroOp (fun w => W.setBits w (w.bits + 3)) 9)
      ∧ (({ readable := false, writable := true, reset_value := none } :
            RegSpec Nat).reset_value = none →
          ({ readable := false, writable := true, reset_value := none } :
              RegSpec Nat).writeOp (fun w => W.setBits w (w.bits + 3)) 9 = none
          ∧ ({ readable := false, writable := true, reset_value := none } :
              RegSpec Nat).resetOp 9 = none)) :=
  ⟨rfl, claim_C5_write_with_zero Nat _ _ 9 rfl⟩

/-! ## Claim C6 -/

/-- C6: round-trip through the façade — for a register with `Readable`,
`Writable` and `ResetValue` capabilities and any enumerated value `v`
(any type with a `ToBits` conversion), writing `v.to_bits()` through the raw
writer and then reading yields a reader whose bits are `v.to_bits()` and
which compares equal to `v` under the generated `PartialEq` impl. -/
theorem claim_C6_roundtrip (U FI : Type) [DecidableEq U] (toBits : FI → U)
    (rs : RegSpec U) (rv : U) (v : FI) (cell : U)
    (hr : rs.readable = true) (hw : rs.writable = true)
    (hrv : rs.reset_value = some rv) :
    ∃ cell' tr r tr',
      rs.writeOp (fun w => w.setBits (toBits v)) cell = some (cell', tr)
      ∧ rs.readOp cell' = some (r, tr')
      ∧ r.bits = toBits v
      ∧ R.eqFI toBits r v = true := by
  refine ⟨toBits v, [MemOp.store (toBits v)], { bits := toBits v },
    [MemOp.load (toBits v)], ?_, ?_, rfl, ?_⟩
  · simp [RegSpec.writeOp, hw, hrv, Reg.write, W.setBits]
  · simp [RegSpec.readOp, hr, Reg.read]
  · simp [R.eqFI]

/-- Witness for C6 at a concrete register and a two-variant enumeration
(modelled by `Bool` with `toBits true = 1`, `toBits false = 0`). -/
theorem claim_C6_roundtrip_witness :
    (({ readable := true, writable := true, reset_value := some 0 } :
        RegSpec Nat).readable = true)
    ∧ (({ readable := true, writable := true, reset_value := some 0 } :
        RegSpec Nat).writable = true)
    ∧ (({ readable := true, writable := true, reset_value := some 0 } :
        RegSpec Nat).reset_value = some 0)
    ∧ ∃ cell' tr r tr',
        ({ readable := true, writable := true, reset_value := some 0 } :
            RegSpec Nat).writeOp
          (fun w => w.setBits ((fun b : Bool => cond b 1 0) true)) 4 =
          some (cell', tr)
        ∧ ({ readable := true, writable := true, reset_value := some 0 } :
            RegSpec Nat).readOp cell' = some (r, tr')
        ∧ r.bits = (fun b : Bool => cond b 1 0) true
        ∧ R.eqFI (fun b : Bool => cond b 1 0) r true = true :=
  ⟨rfl, rfl, rfl,
    claim_C6_roundtrip Nat Bool (fun b : Bool => cond b 1 0)
      { readable := true, writable := true, reset_value := some 0 }
      0 true 4 rfl rfl rfl⟩

/-! ## Concrete devices used as counterexample inputs -/

/-- A device with one ordinary peripheral carrying a register. -/
def demoDevice : Device :=
  { name := "DEMO", cpu := none,
    peripherals := [{ name := "TIM", registers := some [()], derived_from := none }] }

/-- A device whose only peripheral has no registers and no `derivedFrom`. -/
def emptyPeriphDevice : Device :=
  { name := "DEMO2", cpu := none,
    peripherals := [{ name := "TIM", registers := none, derived_from := none }] }

/-! ## Claim C2 -/

/-- Counterexample to C2 as stated: on a device with one register-bearing
peripheral and `conditional = false`, the feature list is `["tim"]`, which is
non-empty, so the list is not non-empty-iff-`conditional`. -/
theorem claim_C2_counterexample :
    (render demoDevice Target.none_ false false false).output.features = ["tim"]
    ∧ ¬(((render demoDevice Target.none_ false false false).output.features ≠ [])
        ↔ (false : Bool) = true) := by
  have h : (render demoDevice Target.none_ false false false).output.features =
      ["tim"] := by
    simp [render_features_eq, fieldPeripherals, demoDevice, includedPeripheral,
      skipsCore, contributesField, skipsField]
    rfl
  refine ⟨h, ?_⟩
  rw [h]
  simp

/-- C2 amended: the feature list of `render` contains exactly one sanitized
snake-case name per peripheral that contributes a `Peripherals` field (it is
neither a Cortex-M core peripheral nor register-less without `derivedFrom`),
regardless of the `conditional` option; `conditional` does not influence the
feature list at all. -/
theorem claim_C2_features (d : Device) (target : Target) (n g c c' : Bool) :
    ((render d target n g c).output.features =
      (fieldPeripherals d target).map (fun p => to_sanitized_snake_case p.name))
    ∧ (render d target n g c).output.features =
        (render d target n g c').output.features := by
  refine ⟨render_features_eq d target n g c, ?_⟩
  rw [render_features_eq, render_features_eq]

/-! ## Claim C7 -/

/-- C7: when `generic_mod` is false the emitted compilation unit inlines the
generic scaffold as a nested module (and no `generic.rs` file is written);
when `generic_mod` is true the scaffold is written to the sibling file
`generic.rs`, the emitted unit references it by module path (emission-driver
step, modelled from the spec), and the inline module is absent. -/
theorem claim_C7_generic_mod (d : Device) (target : Target) (n g c : Bool) :
    ((Token.genericInline ∈ (renderWithDriver d target n g c).output.tokens)
      ↔ g = false)
    ∧ (renderWithDriver d target n g c).genericFileWritten = g
    ∧ ((Token.genericModulePath ∈ (renderWithDriver d target n g c).output.tokens)
      ↔ g = true) := by
  rcases d with ⟨nm, cpu, ps⟩
  cases target <;> cases cpu <;> cases g <;>
    simp [renderWithDriver, render, emissionDriverGenericRef, peripheralLoop_eq]

/-! ## Claim C8 -/

/-- Counterexample to C8 as stated: the device `emptyPeriphDevice` has a
peripheral (named `TIM`, without registers or `derivedFrom`), yet the emitted
`Peripherals` struct has no field for it. -/
theorem claim_C8_counterexample :
    ¬ (∀ p ∈ emptyPeriphDevice.peripherals, ∃ f,
        f ∈ singletonFields (render emptyPeriphDevice Target.none_ false false false)
        ∧ f.name = to_sanitized_upper_case p.name) := by
  intro hcl
  rcases hcl { name := "TIM", registers := none, derived_from := none }
      (by simp [emptyPeriphDevice]) with ⟨f, hf, _⟩
  have hempty :
      singletonFields (render emptyPeriphDevice Target.none_ false false false)
        = [] := by
    simp [render_singletonFields_eq, fieldPeripherals, emptyPeriphDevice,
      includedPeripheral, skipsCore, contributesField, skipsField]
  rw [hempty] at hf
  exact absurd hf (List.not_mem_nil f)

/-- C8 amended: the emitted `Peripherals` struct contains exactly one field
per peripheral that is not skipped (Cortex-M core peripherals and
register-less peripherals without `derivedFrom` are skipped), named with the
peripheral's sanitized upper-case (screaming-snake) name and feature-gated
exactly when `conditional` is set. -/
theorem claim_C8_fields (d : Device) (target : Target) (n g c : Bool) :
    singletonFields (render d target n g c) =
      (fieldPeripherals d target).map
        (fun p => { name := to_sanitized_upper_case p.name, gated := c }) :=
  render_singletonFields_eq d target n g c

/-! ## Claim C9 -/

/-- C9: the emitted `Peripherals` impl contains a `take` constructor exactly
when the target is one of cortex-m, msp430, riscv; `steal` is always
emitted, so for target `none` `steal` is present while `take` is not. -/
theorem claim_C9_take (d : Device) (target : Target) (n g c : Bool) :
    (takeEmitted (render d target n g c) = true ↔
      (target = Target.cortexM ∨ target = Target.msp430 ∨ target = Target.riscv))
    ∧ stealEmitted (render d target n g c) = true := by
  rcases d with ⟨nm, cpu, ps⟩
  cases target <;> cases cpu <;> cases g <;>
    simp [takeEmitted, stealEmitted, render, peripheralLoop_eq, List.any_map,
      Function.comp, any_const_false]

/-! ## Claim C10 -/

/-- C10: for a Cortex-M target and a device without CPU descriptor, `render`
assumes an FPU: no `NVIC_PRIO_BITS` constant is emitted, the core-peripheral
re-export uses the FPU variant, the core-peripheral skip list contains `FPU`
and `FPB`, and the whole output (tokens and features) is exactly what a
device declaring `fpu_present = true` would give minus the `NVIC_PRIO_BITS`
token. -/
theorem claim_C10_no_cpu (nm : String) (ps : List Peripheral) (n g c : Bool)
    (bits : Nat) :
    (∀ b, Token.nvicPrioBits b ∉
      (render { name := nm, cpu := none, peripherals := ps }
        Target.cortexM n g c).output.tokens)
    ∧ Token.coreReexports true ∈
        (render { name := nm, cpu := none, peripherals := ps }
          Target.cortexM n g c).output.tokens
    ∧ "FPU" ∈ corePeripheralNames
        (fpuPresent { name := nm, cpu := none, peripherals := ps })
    ∧ "FPB" ∈ corePeripheralNames
        (fpuPresent { name := nm, cpu := none, peripherals := ps })
    ∧ (∃ A B,
        (render { name := nm, cpu := none, peripherals := ps }
          Target.cortexM n g c).output.tokens = A ++ B
        ∧ (render { name := nm, cpu := some ⟨bits, true⟩, peripherals := ps }
              Target.cortexM n g c).output.tokens =
            A ++ Token.nvicPrioBits bits :: B)
    ∧ (render { name := nm, cpu := some ⟨bits, true⟩, peripherals := ps }
          Target.cortexM n g c).output.features =
        (render { name := nm, cpu := none, peripherals := ps }
          Target.cortexM n g c).output.features := by
  refine ⟨?_, ?_, ?_, ?_, ?_, ?_⟩
  · intro b
    simp [render, peripheralLoop_eq, fpuPresent]
  · simp [render, fpuPresent]
  · simp [corePeripheralNames, fpuPresent]
  · simp [corePeripheralNames, fpuPresent]
  · refine ⟨[Token.crateAttrs (upperStr nm), Token.cortexMCrates,
      Token.bareMetalImports c],
      (render { name := nm, cpu := none, peripherals := ps }
        Target.cortexM n g c).output.tokens.drop 3, ?_, ?_⟩
    · simp [render, fpuPresent]
    · simp [render, fpuPresent]
  · rw [render_features_eq, render_features_eq]
    simp [fieldPeripherals, fpuPresent]

end Svd2Rust
